import Mathlib

/-!
Shallow embedding of the Mineploy client control-plane code
(frontend hooks, stores and type declarations) together with proofs
of the specified properties.

Each definition is translated from a named source file of the
repository; the one definition modelled from the spec (the backend
create endpoint, whose service code is not among the sources) is
marked as such in its doc comment.
-/

namespace Mineploy

/-! Data model, from src/frontend/src/types/server.ts -/

/-- Server engine variant (enum ServerType). -/
inductive ServerType where
  | vanilla
  | paper
  | spigot
  | fabric
  | forge
  | neoforge
  | purpur
deriving DecidableEq, Repr

/-- Lifecycle status of a server (enum ServerStatus). -/
inductive ServerStatus where
  | stopped
  | downloading
  | initializing
  | starting
  | running
  | stopping
  | error
deriving DecidableEq, Repr

/-- One managed server record (interface Server). Timestamps are carried
as opaque strings, exactly as the client receives them. -/
structure Server where
  id : Nat
  name : String
  description : Option String
  server_type : ServerType
  version : String
  port : Nat
  rcon_port : Nat
  memory_mb : Nat
  container_id : Option String
  container_name : String
  status : ServerStatus
  is_active : Bool
  created_at : String
  updated_at : String
  last_started_at : Option String
  last_stopped_at : Option String
deriving DecidableEq, Repr

/-! Authentication data model, from the auth types file and
src/frontend/src/stores/auth.store.ts -/

/-- Role of a user account (enum UserRole). -/
inductive UserRole where
  | admin
  | moderator
  | viewer
deriving DecidableEq, Repr

/-- A user account (interface User). -/
structure User where
  id : Nat
  username : String
  email : String
  role : UserRole
  is_active : Bool
  created_at : String
  updated_at : String
deriving DecidableEq, Repr

/-- Login response payload (interface TokenResponse); both token fields
are plain strings, never null. -/
structure TokenResponse where
  access_token : String
  refresh_token : String
  token_type : String
  user : User
deriving DecidableEq, Repr

/-- The data fields of the zustand auth store (interface AuthState,
minus its three methods, which are modelled as the functions below). -/
structure AuthState where
  user : Option User
  accessToken : Option String
  refreshToken : Option String
  isAuthenticated : Bool
deriving DecidableEq, Repr

/-- Initial store state: all fields null / false. -/
def initialAuthState : AuthState :=
  { user := none, accessToken := none, refreshToken := none, isAuthenticated := false }

/-- The login action: sets user, both tokens and the authenticated flag
from the token response (localStorage writes are outside the store state). -/
def AuthState.login (_s : AuthState) (data : TokenResponse) : AuthState :=
  { user := some data.user
    accessToken := some data.access_token
    refreshToken := some data.refresh_token
    isAuthenticated := true }

/-- The logout action: clears user, both tokens and the flag. -/
def AuthState.logout (_s : AuthState) : AuthState :=
  { user := none, accessToken := none, refreshToken := none, isAuthenticated := false }

/-- The updateUser action: zustand set with only the user key merges into
the existing state, leaving tokens and flag untouched. -/
def AuthState.updateUser (s : AuthState) (u : User) : AuthState :=
  { s with user := some u }

/-- The store invariant claimed for the token / flag pair. -/
def authTokenInvariant (s : AuthState) : Prop :=
  s.isAuthenticated = true ↔ s.accessToken ≠ none

instance (s : AuthState) : Decidable (authTokenInvariant s) := by
  unfold authTokenInvariant; infer_instance

/-! WebSocket channel and message types, from the logs types file
(re-exported through src/frontend/src/types/files.ts and
src/frontend/src/types/settings.ts) -/

/-- Channel values accepted by the WebSocketChannel union type. -/
def isWebSocketChannel (s : String) : Bool :=
  s == "default" || s == "minecraft_logs" || s == "container_logs"

/-- Details map of a status update, carried opaquely as key/value pairs. -/
def StatusDetails := List (String × String)
deriving DecidableEq, Repr

/-- Server-to-client streaming messages (union WebSocketMessageUnion):
each variant carries the base server_id plus its kind-specific payload.
The numeric download-progress payload is carried as integers, since the
client never computes with it. -/
inductive WSMessage where
  | status_update (server_id : Nat) (status : String) (details : Option StatusDetails)
  | download_progress (server_id : Nat) (current : Int) (total : Int) (percentage : Int)
  | logs (server_id : Nat) (logs : String)
  | log_line (server_id : Nat) (line : String) (channel : String)
  | pong (server_id : Nat)
  | error (server_id : Nat) (message : String)
deriving DecidableEq, Repr

/-- The type tag of a message (the literal type field of each variant). -/
def wsMessageType : WSMessage → String
  | .status_update _ _ _ => "status_update"
  | .download_progress _ _ _ _ => "download_progress"
  | .logs _ _ => "logs"
  | .log_line _ _ _ => "log_line"
  | .pong _ => "pong"
  | .error _ _ => "error"

/-- The six type tags of the union (type WebSocketMessageType). -/
def wsMessageTypes : List String :=
  ["status_update", "download_progress", "logs", "log_line", "pong", "error"]

/-! The useWebSocket hook, from src/frontend/src/hooks/use-websocket.ts -/

/-- List state kept by the hook: the legacy bulk log chunks and the
streamed log lines (the two useState lists). -/
structure WsHookState where
  logs : List String
  logLines : List String
deriving DecidableEq, Repr

/-- The ws.onmessage handler, restricted to its state effect: a logs
message appends its chunk to logs, a log_line message appends its line to
logLines; status_update and error only invoke callbacks, pong and
download_progress fall through — none of them touch the lists. -/
def handleWsMessage (st : WsHookState) (m : WSMessage) : WsHookState :=
  match m with
  | .status_update _ _ _ => st
  | .logs _ chunk => { st with logs := st.logs ++ [chunk] }
  | .log_line _ line _ => { st with logLines := st.logLines ++ [line] }
  | .error _ _ => st
  | _ => st

/-- Processing a whole arrival sequence of messages, in order. -/
def processWsMessages (st : WsHookState) (ms : List WSMessage) : WsHookState :=
  ms.foldl handleWsMessage st

/-- The line payload of a log_line message, none for every other kind. -/
def logLinePayload : WSMessage → Option String
  | .log_line _ line _ => some line
  | _ => none

/-- The logs chunk payload of a legacy logs message. -/
def logsPayload : WSMessage → Option String
  | .logs _ chunk => some chunk
  | _ => none

/-- The fixed keepalive interval set up in ws.onopen, in milliseconds. -/
def pingIntervalMs : Nat := 30000

/-- The bare liveness-probe token sent on each keepalive tick. -/
def pingMessage : String := "ping"

/-- The sendMessage helper: transmits the string only while the
connection is open (wsRef set and connected). -/
def sendMessage (connected : Bool) (message : String) : Option String :=
  if connected then some message else none

/-- The startStreaming operation. -/
def startStreaming (connected : Bool) : Option String :=
  sendMessage connected "start_streaming"

/-- The stopStreaming operation. -/
def stopStreaming (connected : Bool) : Option String :=
  sendMessage connected "stop_streaming"

/-- The three client-side send sites in the hook: the keepalive interval
tick (guarded by readyState OPEN) and the two streaming control calls. -/
inductive ClientSendEvent where
  | pingTick
  | startStreamingCall
  | stopStreamingCall
deriving DecidableEq, Repr

/-- The string a send site puts on the wire, given whether the
connection is currently open. -/
def clientUpstream : ClientSendEvent → Bool → Option String
  | .pingTick, isOpen => if isOpen then some pingMessage else none
  | .startStreamingCall, connected => startStreaming connected
  | .stopStreamingCall, connected => stopStreaming connected

/-- Fallback API base URL used when no environment override is present. -/
def apiBaseUrlDefault : String := "http://localhost:8000/api/v1"

/-- The apiUrl.replace of the http scheme by ws: the regular expression
is anchored at the start, so when the URL opens with the four characters
http they are replaced by ws, once; otherwise the URL is unchanged. -/
def httpToWs (apiUrl : String) : String :=
  if apiUrl.toList.take 4 = ['h', 't', 't', 'p'] then
    ('w' :: 's' :: apiUrl.toList.drop 4).asString
  else apiUrl

/-- Default channel bound when the caller supplies none (the destructuring
default of the channel option). -/
def defaultChannel : String := "default"

/-- The connection URL built by connect for a server id and an optional
channel. -/
def buildWsUrl (apiUrl : String) (serverId : Nat) (channel : Option String) : String :=
  httpToWs apiUrl ++ "/servers/ws/" ++ toString serverId ++ "?channel=" ++
    channel.getD defaultChannel

/-- Occurrences of a character in a string. -/
def countChar (s : String) (c : Char) : Nat :=
  s.toList.count c

/-! Power-action gating, from the table rows of ServerTable in
src/frontend/src/components/servers/create-server-dialog.tsx and the
header buttons of ServerDetailPage (src/unnamed/part_011): the start
button renders only for status stopped, restart/stop only for running,
any other status renders a disabled spinner. -/

/-- The three power actions a user can dispatch from the UI. -/
inductive PowerAction where
  | start
  | stop
  | restart
deriving DecidableEq, Repr

/-- The isTransitioning flag of the server table row. -/
def tableIsTransitioning (s : ServerStatus) : Bool :=
  s == .starting || s == .stopping

/-- The isTransitioning flag of the server detail page. -/
def detailIsTransitioning (s : ServerStatus) : Bool :=
  s == .downloading || s == .initializing || s == .starting || s == .stopping

/-- The power actions whose buttons are rendered (and can dispatch a
mutation) in a table row for a given status. -/
def tableActions (s : ServerStatus) : List PowerAction :=
  if s == .stopped && !tableIsTransitioning s then [.start]
  else if s == .running && !tableIsTransitioning s then [.restart, .stop]
  else []

/-- The power actions dispatchable from the detail page header for a
given status. -/
def detailActions (s : ServerStatus) : List PowerAction :=
  if s == .stopped && !detailIsTransitioning s then [.start]
  else if s == .running && !detailIsTransitioning s then [.restart, .stop]
  else []

/-- The isTransitioning flag of the dashboard ServerCard, which also
treats an in-flight start/stop/restart mutation as transitioning. -/
def cardIsTransitioning (s : ServerStatus) (pending : Bool) : Bool :=
  s == .downloading || s == .initializing || s == .starting || s == .stopping || pending

/-- The power actions dispatchable from a dashboard server card for a
given status and mutation-pending flag. -/
def cardActions (s : ServerStatus) (pending : Bool) : List PowerAction :=
  if s == .stopped && !cardIsTransitioning s pending then [.start]
  else if s == .running && !cardIsTransitioning s pending then [.restart, .stop]
  else []

/-! Optimistic cache updates of the start/stop mutations, from
useServerActions in src/frontend/src/hooks/use-servers.ts. The
react-query cache of detail records is modelled as a map from server id
to the cached record; invalidating a detail query is modelled as
refetching the record from the backend source of truth, which a failed
power call left unchanged. -/

/-- The react-query detail cache, keyed by server id. -/
def QueryCache : Type := Nat → Option Server

/-- queryClient.setQueryData with an updater function at one detail key. -/
def setQueryDataFn (k : Nat) (f : Option Server → Option Server) (c : QueryCache) : QueryCache :=
  fun j => if j = k then f (c j) else c j

/-- The startServer onMutate handler: synchronously writes status
starting into the cached record for the id (the updater returns the
old value unchanged when nothing is cached). -/
def startOnMutate (id : Nat) (c : QueryCache) : QueryCache :=
  setQueryDataFn id (fun old =>
    match old with
    | none => none
    | some s => some { s with status := .starting }) c

/-- The stopServer onMutate handler: same shape with status stopping. -/
def stopOnMutate (id : Nat) (c : QueryCache) : QueryCache :=
  setQueryDataFn id (fun old =>
    match old with
    | none => none
    | some s => some { s with status := .stopping }) c

/-- The onSuccess handler: the settled server-returned record replaces
the cached record at its id. -/
def onSuccessSettle (data : Server) (c : QueryCache) : QueryCache :=
  fun j => if j = data.id then some data else c j

/-- The onError handler: invalidates the detail query for the id, so the
record is refetched from the backend (discarding the optimistic value);
the error itself is surfaced through a toast, never retried. -/
def onErrorRevert (id : Nat) (backend : Nat → Option Server) (c : QueryCache) : QueryCache :=
  fun j => if j = id then backend id else c j

/-! The axios response interceptor, from src/frontend/src/lib/api-client.ts -/

/-- The localStorage slots the interceptor reads and writes. -/
structure TokenStorage where
  access_token : Option String
  refresh_token : Option String
  user : Option String
deriving DecidableEq, Repr

/-- Outcome of one HTTP attempt as the interceptor sees it. -/
inductive HttpResult where
  | ok (body : String)
  | err (status : Nat)
deriving DecidableEq, Repr

/-- Outcome of the POST /auth/refresh call. -/
inductive RefreshResult where
  | ok (access_token : String) (refresh_token : String)
  | err
deriving DecidableEq, Repr

/-- What the interceptor does with a response: pass a success through,
propagate the original error, propagate the refresh failure, or re-issue
the original request (marked) with a new access token. -/
inductive InterceptAction where
  | pass (body : String)
  | reject (status : Nat)
  | rejectRefreshError
  | retry (newAccess : String)
deriving DecidableEq, Repr

/-- The response interceptor: on a 401 whose request is not yet marked
retried, it marks it, and if a refresh token is stored attempts a
refresh — storing both new tokens and retrying on success, clearing
access token, refresh token and user and propagating the refresh error
on failure; without a stored refresh token, and for every other error or
an already-marked request, the original error is propagated. -/
def responseInterceptor (st : TokenStorage) (retryFlag : Bool) (res : HttpResult)
    (refresh : RefreshResult) : TokenStorage × InterceptAction :=
  match res with
  | .ok body => (st, .pass body)
  | .err status =>
    if status = 401 ∧ retryFlag = false then
      match st.refresh_token with
      | some _ =>
        match refresh with
        | .ok a r => ({ st with access_token := some a, refresh_token := some r }, .retry a)
        | .err => ({ access_token := none, refresh_token := none, user := none },
            .rejectRefreshError)
      | none => (st, .reject status)
    else (st, .reject status)

/-- One full API call through the interceptor: the first attempt is
issued unmarked; when the interceptor answers retry, the request is
re-issued exactly once with the retry mark set. Returns the final
storage, the final action and the number of attempts issued. -/
def runApiRequest (st : TokenStorage) (firstRes : HttpResult)
    (refresh : RefreshResult) (retryRes : HttpResult) :
    TokenStorage × InterceptAction × Nat :=
  match responseInterceptor st false firstRes refresh with
  | (st1, .retry _) =>
    let out := responseInterceptor st1 true retryRes refresh
    (out.1, out.2, 2)
  | (st1, act) => (st1, act, 1)

/-! Create-form validation, from validateForm and handleSubmit in
src/frontend/src/components/servers/create-server-dialog.tsx -/

/-- The formData state of the create dialog. -/
structure CreateServerForm where
  name : String
  description : String
  server_type : ServerType
  version : String
  memory_mb : Nat
  port : String
  rcon_port : String
deriving DecidableEq, Repr

/-- JavaScript String.prototype.trim: strips whitespace from both ends. -/
def jsTrim (s : String) : String :=
  (((s.toList.dropWhile Char.isWhitespace).reverse.dropWhile Char.isWhitespace).reverse).asString

/-- Value of a decimal digit run. -/
def digitsToNat (ds : List Char) : Nat :=
  ds.foldl (fun a c => a * 10 + (c.toNat - '0'.toNat)) 0

/-- JavaScript parseInt in base 10 on a form field: leading whitespace
skipped, optional sign, then the maximal leading digit run; none models
NaN (no leading digit). -/
def parseIntJs (s : String) : Option Int :=
  match s.toList.dropWhile Char.isWhitespace with
  | '-' :: rest =>
    if rest.takeWhile Char.isDigit = [] then none
    else some (-(digitsToNat (rest.takeWhile Char.isDigit) : Int))
  | '+' :: rest =>
    if rest.takeWhile Char.isDigit = [] then none
    else some ((digitsToNat (rest.takeWhile Char.isDigit) : Int))
  | cs =>
    if cs.takeWhile Char.isDigit = [] then none
    else some ((digitsToNat (cs.takeWhile Char.isDigit) : Int))

/-- The newErrors record built by validateForm (one optional message per
validated field). -/
structure FormErrors where
  name : Option String
  version : Option String
  port : Option String
  rcon_port : Option String
deriving DecidableEq, Repr

/-- The empty error record (Object.keys length zero). -/
def noFormErrors : FormErrors :=
  { name := none, version := none, port := none, rcon_port := none }

/-- Truthiness-guarded range test of one optional port field:
field && (parseInt(field) < 1024 || parseInt(field) > 65535); a NaN
comparison is false in JavaScript, hence the none branch. -/
def portFieldOutOfRange (s : String) : Bool :=
  if s = "" then false
  else
    match parseIntJs s with
    | some n => decide (n < 1024) || decide (n > 65535)
    | none => false

/-- The validateForm function of the create dialog. -/
def validateForm (f : CreateServerForm) : FormErrors :=
  { name :=
      if jsTrim f.name = "" then some "Server name is required"
      else if f.name.length > 100 then some "Server name must be less than 100 characters"
      else none
    version :=
      if jsTrim f.version = "" then some "Version is required"
      else if f.version.length > 20 then some "Version must be less than 20 characters"
      else none
    port :=
      if portFieldOutOfRange f.port then some "Port must be between 1024 and 65535" else none
    rcon_port :=
      if portFieldOutOfRange f.rcon_port then some "RCON port must be between 1024 and 65535"
      else none }

/-- The create request payload (interface CreateServerRequest); the
optional ports carry the parsed integers. -/
structure CreateServerRequest where
  name : String
  description : Option String
  server_type : ServerType
  version : String
  memory_mb : Nat
  port : Option Int
  rcon_port : Option Int
deriving DecidableEq, Repr

/-- The payload handleSubmit builds once validation passes. -/
def submitPayload (f : CreateServerForm) : CreateServerRequest :=
  { name := jsTrim f.name
    description := if jsTrim f.description = "" then none else some (jsTrim f.description)
    server_type := f.server_type
    version := jsTrim f.version
    memory_mb := f.memory_mb
    port := if f.port = "" then none else parseIntJs f.port
    rcon_port := if f.rcon_port = "" then none else parseIntJs f.rcon_port }

/-- Result of handleSubmit: either validation rejected the form and no
request is made, or the create request is issued with the payload. -/
inductive SubmitResult where
  | rejected (errors : FormErrors)
  | requested (payload : CreateServerRequest)
deriving DecidableEq, Repr

/-- The handleSubmit handler: returns before any request when
validateForm reports an error. -/
def handleSubmit (f : CreateServerForm) : SubmitResult :=
  if validateForm f = noFormErrors then .requested (submitPayload f)
  else .rejected (validateForm f)

/-- Error raised by the backend create endpoint on a port conflict. -/
inductive CreateError where
  | PortConflict
deriving DecidableEq, Repr

/-- Whether a port is already used as game or RCON port of an existing
instance. -/
def portInUse (existing : List Server) (p : Int) : Bool :=
  existing.any (fun s => decide ((s.port : Int) = p) || decide ((s.rcon_port : Int) = p))

/-- Modelled from the spec: the backend check of one explicit port (the
backend service code is not among these sources). Spec 4.1: game port and
RCON port, if explicit, must lie in configured ranges and be currently
unused — else the create fails with PortConflict. -/
def backendPortOk (existing : List Server) (lo hi : Int) : Option Int → Bool
  | none => true
  | some p => decide (lo ≤ p) && decide (p ≤ hi) && !portInUse existing p

/-- Modelled from the spec: the backend create endpoint (the backend
service code is not among these sources). Spec 4.1 and 8: an explicit
game or RCON port that is out of the configured range or currently in
use fails the create with PortConflict and allocates no resources;
otherwise the new instance is added. -/
def backendCreate (gameLo gameHi rconLo rconHi : Int) (existing : List Server)
    (req : CreateServerRequest) (created : Server) :
    Except CreateError (List Server) :=
  if backendPortOk existing gameLo gameHi req.port &&
      backendPortOk existing rconLo rconHi req.rcon_port then
    .ok (existing ++ [created])
  else
    .error .PortConflict

/-- The instance set resulting from a create outcome: an error leaves
the existing set untouched. -/
def instancesAfter (existing : List Server) : Except CreateError (List Server) → List Server
  | .ok l => l
  | .error _ => existing

/-- A concrete server record used by the witness statements. -/
def demoServer : Server :=
  { id := 1, name := "srv", description := none, server_type := .paper,
    version := "1.20.4", port := 25565, rcon_port := 25575, memory_mb := 2048,
    container_id := some "c1", container_name := "mineploy-srv",
    status := .stopped, is_active := true, created_at := "2024-01-01",
    updated_at := "2024-01-01", last_started_at := none, last_stopped_at := none }

/-- A concrete one-entry detail cache used by the witness statements. -/
def demoCache : QueryCache :=
  fun j => if j = 1 then some demoServer else none

/-- A concrete filled-in create form used by the witness statements. -/
def demoForm : CreateServerForm :=
  { name := "My Server", description := "", server_type := .paper,
    version := "1.20.4", memory_mb := 2048, port := "25565", rcon_port := "" }

end Mineploy

namespace Mineploy

/-- Helper for C6: folding the handler over any message list appends the
log_line payloads, in order, to the tail of the accumulated line list. -/
theorem processWsMessages_logLines (st : WsHookState) (ms : List WSMessage) :
    (processWsMessages st ms).logLines = st.logLines ++ ms.filterMap logLinePayload := by
  induction ms generalizing st with
  | nil => simp [processWsMessages]
  | cons m rest ih =>
    have hstep : processWsMessages st (m :: rest) =
        processWsMessages (handleWsMessage st m) rest := rfl
    rw [hstep, ih]
    cases m <;> simp [handleWsMessage, logLinePayload]

/-- C6: after processing any arrival sequence from an empty state, the
subscriber's line list is exactly the subsequence of log_line payloads in
arrival order — every line appended at the tail, none reordered, dropped
or batched. -/
theorem log_lines_in_arrival_order (ms : List WSMessage) :
    (processWsMessages { logs := [], logLines := [] } ms).logLines =
      ms.filterMap logLinePayload := by
  simpa using processWsMessages_logLines { logs := [], logLines := [] } ms

/-- C7: while the connection is open the client puts exactly the three
strings ping, start_streaming and stop_streaming on the wire (ping from
the fixed 30000 ms keepalive interval), the two control operations always
send exactly their control string, and nothing is sent while closed. -/
theorem client_upstream_strings :
    (∀ e, clientUpstream e true ∈
      [some "ping", some "start_streaming", some "stop_streaming"]) ∧
    (∀ e, clientUpstream e false = none) ∧
    startStreaming true = some "start_streaming" ∧
    stopStreaming true = some "stop_streaming" ∧
    clientUpstream .pingTick true = some "ping" ∧
    pingIntervalMs = 30000 := by
  refine ⟨fun e => ?_, fun e => ?_, rfl, rfl, rfl, rfl⟩ <;>
    cases e <;> simp [clientUpstream, startStreaming, stopStreaming, sendMessage, pingMessage]

/-- Helper: character counts add over string concatenation. -/
theorem countChar_append (a b : String) (c : Char) :
    countChar (a ++ b) c = countChar a c + countChar b c := by
  simp [countChar, String.toList, List.count_append]

/-- Helper: the scheme rewrite cannot introduce a question mark. -/
theorem countChar_httpToWs (s : String) (h : countChar s '?' = 0) :
    countChar (httpToWs s) '?' = 0 := by
  unfold httpToWs
  by_cases hp : s.toList.take 4 = ['h', 't', 't', 'p']
  · rw [if_pos hp]
    unfold countChar at h ⊢
    rw [List.toList_asString, List.count_cons, List.count_cons]
    have hle : (s.toList.drop 4).count '?' ≤ s.toList.count '?' :=
      (List.drop_sublist 4 s.toList).count_le '?'
    simp only [h, Nat.le_zero] at hle
    simpa [String.toList] using hle
  · rw [if_neg hp]; exact h

/-- Helper: the character for a decimal digit is a digit character. -/
theorem digitChar_isDigit (m : Nat) (h : m < 10) : (Nat.digitChar m).isDigit = true := by
  interval_cases m <;> decide

/-- Helper: every character produced by the base-10 digit printer is a
digit character or comes from the accumulator. -/
theorem toDigitsCore_chars (f : Nat) :
    ∀ (n : Nat) (acc : List Char) (c : Char),
      c ∈ Nat.toDigitsCore 10 f n acc → c ∈ acc ∨ c.isDigit = true := by
  induction f with
  | zero =>
    intro n acc c hc
    exact Or.inl (by simpa [Nat.toDigitsCore] using hc)
  | succ f ih =>
    intro n acc c hc
    by_cases h : n / 10 = 0
    · have hc2 : c ∈ Nat.digitChar (n % 10) :: acc := by
        simpa [Nat.toDigitsCore, h] using hc
      rcases List.mem_cons.mp hc2 with rfl | h2
      · exact Or.inr (digitChar_isDigit _ (Nat.mod_lt _ (by norm_num)))
      · exact Or.inl h2
    · have hc2 : c ∈ Nat.toDigitsCore 10 f (n / 10) (Nat.digitChar (n % 10) :: acc) := by
        simpa [Nat.toDigitsCore, h] using hc
      rcases ih (n / 10) (Nat.digitChar (n % 10) :: acc) c hc2 with hmem | hd
      · rcases List.mem_cons.mp hmem with rfl | h2
        · exact Or.inr (digitChar_isDigit _ (Nat.mod_lt _ (by norm_num)))
        · exact Or.inl h2
      · exact Or.inr hd

/-- Helper: the decimal representation of a natural number contains no
question mark. -/
theorem countChar_natRepr_q (n : Nat) : countChar (Nat.repr n) '?' = 0 := by
  unfold countChar
  rw [List.count_eq_zero]
  intro hmem
  have h2 : ('?' : Char) ∈ Nat.toDigitsCore 10 (n + 1) n [] := by
    simpa [Nat.repr, Nat.toDigits, String.toList, List.toList_asString] using hmem
  rcases toDigitsCore_chars (n + 1) n [] '?' h2 with h3 | h4
  · simp at h3
  · exact absurd h4 (by decide)

/-- Helper: toString on Nat is the decimal representation. -/
theorem toString_nat_eq_repr (n : Nat) : toString n = Nat.repr n := rfl

/-- C8: the connection URL is a function of the instance id and one
channel value; an omitted channel produces the same URL as the explicit
channel default, the URL always carries a channel query parameter, and
when the base URL and channel are free of question marks the URL has
exactly one query delimiter (a single query parameter). -/
theorem ws_url_single_channel (apiUrl : String) (serverId : Nat) (ch : String)
    (hApi : countChar apiUrl '?' = 0) (hCh : countChar ch '?' = 0) :
    buildWsUrl apiUrl serverId none = buildWsUrl apiUrl serverId (some defaultChannel) ∧
    (∃ base, buildWsUrl apiUrl serverId (some ch) = base ++ "?channel=" ++ ch ∧
      base = httpToWs apiUrl ++ "/servers/ws/" ++ toString serverId) ∧
    countChar (buildWsUrl apiUrl serverId (some ch)) '?' = 1 := by
  refine ⟨rfl, ⟨httpToWs apiUrl ++ "/servers/ws/" ++ toString serverId, rfl, rfl⟩, ?_⟩
  have hws : countChar (httpToWs apiUrl) '?' = 0 := countChar_httpToWs apiUrl hApi
  have hid : countChar (toString serverId) '?' = 0 := by
    rw [toString_nat_eq_repr]; exact countChar_natRepr_q serverId
  have hpath : countChar "/servers/ws/" '?' = 0 := by decide
  have hq : countChar "?channel=" '?' = 1 := by decide
  show countChar (httpToWs apiUrl ++ "/servers/ws/" ++ toString serverId ++
    "?channel=" ++ ch) '?' = 1
  rw [countChar_append, countChar_append, countChar_append, countChar_append,
    hws, hid, hpath, hq, hCh]

/-- Witness for C8: the URL property at the fallback API base URL, a
concrete server id and the container_logs channel. -/
theorem ws_url_single_channel_witness :
    countChar apiBaseUrlDefault '?' = 0 ∧
    countChar "container_logs" '?' = 0 ∧
    countChar (buildWsUrl apiBaseUrlDefault 7 (some "container_logs")) '?' = 1 :=
  ⟨by decide, by decide,
    (ws_url_single_channel apiBaseUrlDefault 7 "container_logs"
      (by decide) (by decide)).2.2⟩

/-- C10: the auth store keeps isAuthenticated true exactly when an access
token is stored: true in the initial state, and preserved by login (sets
both), logout (clears both) and updateUser (touches neither). -/
theorem auth_store_token_flag_invariant :
    authTokenInvariant initialAuthState ∧
    (∀ (s : AuthState) (d : TokenResponse), authTokenInvariant (s.login d)) ∧
    (∀ s : AuthState, authTokenInvariant s.logout) ∧
    (∀ (s : AuthState) (u : User), authTokenInvariant s → authTokenInvariant (s.updateUser u)) := by
  refine ⟨by simp [authTokenInvariant, initialAuthState], fun s d => ?_, fun s => ?_, fun s u h => ?_⟩
  · simp [authTokenInvariant, AuthState.login]
  · simp [authTokenInvariant, AuthState.logout]
  · simpa [authTokenInvariant, AuthState.updateUser] using h

/-- Witness for C10: the preservation clause applied at a concrete
authenticated state and user. -/
theorem auth_store_token_flag_invariant_witness :
    authTokenInvariant
      (AuthState.updateUser
        { user := none, accessToken := some "t", refreshToken := some "r", isAuthenticated := true }
        { id := 1, username := "a", email := "a@b.c", role := .admin,
          is_active := true, created_at := "", updated_at := "" }) :=
  auth_store_token_flag_invariant.2.2.2 _ _ (by decide)

/-- Counterexample for C4: the channel union accepts minecraft_logs, not
game_logs, so the claimed three-element set is wrong: the claimed member
game_logs is rejected by the code. -/
theorem channel_set_counterexample :
    isWebSocketChannel "game_logs" = false ∧ isWebSocketChannel "minecraft_logs" = true := by
  decide

/-- C4 (amended): the set of channels a subscription can bind to is
exactly the three values default, minecraft_logs, container_logs. -/
theorem channel_set_exact (s : String) :
    isWebSocketChannel s = true ↔
      s = "default" ∨ s = "minecraft_logs" ∨ s = "container_logs" := by
  unfold isWebSocketChannel
  constructor
  · intro h
    rcases Bool.or_eq_true_iff.mp h with h1 | h2
    · rcases Bool.or_eq_true_iff.mp h1 with ha | hb
      · exact Or.inl (by simpa using ha)
      · exact Or.inr (Or.inl (by simpa using hb))
    · exact Or.inr (Or.inr (by simpa using h2))
  · rintro (rfl | rfl | rfl) <;> decide

/-- Witness for C4 (amended): the equivalence applied at the concrete
channel value container_logs. -/
theorem channel_set_exact_witness :
    isWebSocketChannel "container_logs" = true :=
  (channel_set_exact "container_logs").mpr (Or.inr (Or.inr rfl))

/-- C5: every streaming message carries exactly one of the six type tags,
each tag is realized, and a message with a given tag is exactly a value of
the corresponding variant with its stated payload fields. -/
theorem ws_message_kinds_exact :
    (∀ m : WSMessage, wsMessageType m ∈ wsMessageTypes) ∧
    (∀ m : WSMessage, wsMessageType m = "status_update" ↔
      ∃ sid st d, m = .status_update sid st d) ∧
    (∀ m : WSMessage, wsMessageType m = "download_progress" ↔
      ∃ sid cur tot pct, m = .download_progress sid cur tot pct) ∧
    (∀ m : WSMessage, wsMessageType m = "logs" ↔ ∃ sid l, m = .logs sid l) ∧
    (∀ m : WSMessage, wsMessageType m = "log_line" ↔
      ∃ sid line ch, m = .log_line sid line ch) ∧
    (∀ m : WSMessage, wsMessageType m = "pong" ↔ ∃ sid, m = .pong sid) ∧
    (∀ m : WSMessage, wsMessageType m = "error" ↔ ∃ sid msg, m = .error sid msg) := by
  refine ⟨fun m => ?_, fun m => ?_, fun m => ?_, fun m => ?_, fun m => ?_, fun m => ?_, fun m => ?_⟩
  all_goals cases m <;> simp [wsMessageType, wsMessageTypes]

/-- C2: a start can be dispatched exactly when the instance is stopped
and stop/restart exactly when it is running, in all three dispatch sites
(server table, detail page, dashboard card — the card additionally
requires no in-flight mutation); every other status, transitional or
error, offers no power action, so a start cannot even be issued against a
running instance. -/
theorem power_actions_gated :
    (∀ s, PowerAction.start ∈ tableActions s ↔ s = .stopped) ∧
    (∀ s, PowerAction.stop ∈ tableActions s ↔ s = .running) ∧
    (∀ s, PowerAction.restart ∈ tableActions s ↔ s = .running) ∧
    (∀ s, PowerAction.start ∈ detailActions s ↔ s = .stopped) ∧
    (∀ s, PowerAction.stop ∈ detailActions s ↔ s = .running) ∧
    (∀ s, PowerAction.restart ∈ detailActions s ↔ s = .running) ∧
    (∀ s pending, PowerAction.start ∈ cardActions s pending ↔
      s = .stopped ∧ pending = false) ∧
    (∀ s pending, PowerAction.stop ∈ cardActions s pending ↔
      s = .running ∧ pending = false) ∧
    (∀ s pending, PowerAction.restart ∈ cardActions s pending ↔
      s = .running ∧ pending = false) ∧
    tableActions .running = [.restart, .stop] ∧
    detailActions .running = [.restart, .stop] := by
  refine ⟨fun s => ?_, fun s => ?_, fun s => ?_, fun s => ?_, fun s => ?_, fun s => ?_,
    fun s pending => ?_, fun s pending => ?_, fun s pending => ?_, ?_, ?_⟩ <;>
    first
      | (cases s <;> decide)
      | (cases s <;> cases pending <;> decide)
      | decide

/-- C1: the start (resp. stop) mutation synchronously writes the
transitional status starting (resp. stopping) into the cached record with
every other field unchanged and no other cache key touched; on success
the settled server-returned record replaces the cache entry; on failure
the entry is refetched from the unchanged backend record, restoring the
last stable state. -/
theorem optimistic_two_phase_power_actions (c : QueryCache) (id : Nat) (old : Server)
    (h : c id = some old) :
    (startOnMutate id c id = some { old with status := .starting } ∧
      (∀ j, j ≠ id → startOnMutate id c j = c j) ∧
      (∀ data : Server, onSuccessSettle data (startOnMutate id c) data.id = some data) ∧
      (∀ backend : Nat → Option Server, backend id = some old →
        onErrorRevert id backend (startOnMutate id c) id = some old)) ∧
    (stopOnMutate id c id = some { old with status := .stopping } ∧
      (∀ j, j ≠ id → stopOnMutate id c j = c j) ∧
      (∀ data : Server, onSuccessSettle data (stopOnMutate id c) data.id = some data) ∧
      (∀ backend : Nat → Option Server, backend id = some old →
        onErrorRevert id backend (stopOnMutate id c) id = some old)) := by
  refine ⟨⟨?_, fun j hj => ?_, fun data => ?_, fun backend hb => ?_⟩,
    ⟨?_, fun j hj => ?_, fun data => ?_, fun backend hb => ?_⟩⟩
  · simp [startOnMutate, setQueryDataFn, h]
  · simp [startOnMutate, setQueryDataFn, hj]
  · simp [onSuccessSettle]
  · simp [onErrorRevert, hb]
  · simp [stopOnMutate, setQueryDataFn, h]
  · simp [stopOnMutate, setQueryDataFn, hj]
  · simp [onSuccessSettle]
  · simp [onErrorRevert, hb]

/-- Witness for C1: the two-phase property applied at the concrete
one-entry cache holding demoServer. -/
theorem optimistic_two_phase_power_actions_witness :
    startOnMutate 1 demoCache 1 = some { demoServer with status := .starting } ∧
    onErrorRevert 1 (fun _ => some demoServer) (startOnMutate 1 demoCache) 1 =
      some demoServer := by
  have h := optimistic_two_phase_power_actions demoCache 1 demoServer rfl
  exact ⟨h.1.1, h.1.2.2.2 (fun _ => some demoServer) rfl⟩

/-- C9: a 401 is retried at most once — never more than two attempts are
issued, a retry is emitted only when a refresh token was stored and the
refresh succeeded, an already-marked request gets no second refresh or
retry, and a failed refresh clears both stored tokens and propagates the
refresh failure to the caller. -/
theorem refresh_retry_at_most_once :
    (∀ (st : TokenStorage) (firstRes : HttpResult) (refresh : RefreshResult)
        (retryRes : HttpResult),
      (runApiRequest st firstRes refresh retryRes).2.2 ≤ 2) ∧
    (∀ (st : TokenStorage) (refresh : RefreshResult) (outSt : TokenStorage) (a : String),
      responseInterceptor st false (.err 401) refresh = (outSt, .retry a) →
        (∃ r, refresh = .ok a r) ∧ st.refresh_token ≠ none) ∧
    (∀ (st : TokenStorage) (status : Nat) (refresh : RefreshResult),
      responseInterceptor st true (.err status) refresh = (st, .reject status)) ∧
    (∀ (access user : Option String) (rt : String),
      responseInterceptor ⟨access, some rt, user⟩ false (.err 401) .err =
        ({ access_token := none, refresh_token := none, user := none },
          .rejectRefreshError)) := by
  refine ⟨fun st firstRes refresh retryRes => ?_, fun st refresh outSt a h => ?_,
    fun st status refresh => ?_, fun access user rt => ?_⟩
  · unfold runApiRequest
    rcases hr : responseInterceptor st false firstRes refresh with ⟨st1, act⟩
    cases act <;> simp
  · cases hrt : st.refresh_token with
    | none => simp [responseInterceptor, hrt] at h
    | some rt =>
      cases refresh with
      | ok a2 r2 =>
        simp [responseInterceptor, hrt, Prod.ext_iff] at h
        exact ⟨⟨r2, by rw [h.2]⟩, by simp [hrt]⟩
      | err => simp [responseInterceptor, hrt] at h
  · simp [responseInterceptor]
  · simp [responseInterceptor]

/-- Witness for C9: the retry-only-after-refresh clause applied at a
concrete storage and a successful refresh outcome. -/
theorem refresh_retry_at_most_once_witness :
    (∃ r, RefreshResult.ok "a1" "r1" = RefreshResult.ok "a1" r) ∧
      (TokenStorage.mk (some "a0") (some "r0") (some "u")).refresh_token ≠ none :=
  refresh_retry_at_most_once.2.1 ⟨some "a0", some "r0", some "u"⟩ (.ok "a1" "r1")
    ⟨some "a1", some "r1", some "u"⟩ "a1" rfl

/-- C3: create validates before any request. A request is issued only
when the trimmed name is non-empty, the name has at most 100 characters,
the trimmed version is non-empty, and each explicitly supplied port
parses into the configured range [1024, 65535]; a failed validation
returns the error record without issuing any request; and, modelled from
the spec, a backend create whose explicit game or RCON port is already in
use fails with PortConflict and leaves the instance set unchanged. -/
theorem create_validates_before_request :
    (∀ (f : CreateServerForm) (p : CreateServerRequest), handleSubmit f = .requested p →
      jsTrim f.name ≠ "" ∧ f.name.length ≤ 100 ∧ jsTrim f.version ≠ "" ∧
      (∀ n : Int, p.port = some n → 1024 ≤ n ∧ n ≤ 65535) ∧
      (∀ n : Int, p.rcon_port = some n → 1024 ≤ n ∧ n ≤ 65535)) ∧
    (∀ f : CreateServerForm, validateForm f ≠ noFormErrors →
      handleSubmit f = .rejected (validateForm f)) ∧
    (∀ (gameLo gameHi rconLo rconHi : Int) (existing : List Server)
        (req : CreateServerRequest) (created : Server) (pg : Int),
      req.port = some pg → portInUse existing pg = true →
        backendCreate gameLo gameHi rconLo rconHi existing req created =
          .error .PortConflict ∧
        instancesAfter existing
          (backendCreate gameLo gameHi rconLo rconHi existing req created) = existing) ∧
    (∀ (gameLo gameHi rconLo rconHi : Int) (existing : List Server)
        (req : CreateServerRequest) (created : Server) (pr : Int),
      req.rcon_port = some pr → portInUse existing pr = true →
        backendCreate gameLo gameHi rconLo rconHi existing req created =
          .error .PortConflict ∧
        instancesAfter existing
          (backendCreate gameLo gameHi rconLo rconHi existing req created) = existing) := by
  refine ⟨fun f p hreq => ?_, fun f hf => ?_,
    fun gameLo gameHi rconLo rconHi existing req created pg hpg huse => ?_,
    fun gameLo gameHi rconLo rconHi existing req created pr hpr huse => ?_⟩
  · unfold handleSubmit at hreq
    by_cases hv : validateForm f = noFormErrors
    · rw [if_pos hv] at hreq
      injection hreq with hpay
      subst hpay
      have hname : jsTrim f.name ≠ "" := by
        intro h0
        have hc := congrArg FormErrors.name hv
        simp [validateForm, noFormErrors, h0] at hc
      have hlen : f.name.length ≤ 100 := by
        by_contra hlen
        have hgt : f.name.length > 100 := Nat.lt_of_not_le hlen
        have hc := congrArg FormErrors.name hv
        simp [validateForm, noFormErrors, hname, hgt] at hc
      have hver : jsTrim f.version ≠ "" := by
        intro h0
        have hc := congrArg FormErrors.version hv
        simp [validateForm, noFormErrors, h0] at hc
      refine ⟨hname, hlen, hver, fun n hn => ?_, fun n hn => ?_⟩
      · by_cases hp : f.port = ""
        · simp [submitPayload, hp] at hn
        · simp only [submitPayload] at hn
          rw [if_neg hp] at hn
          have hc := congrArg FormErrors.port hv
          simp [validateForm, noFormErrors] at hc
          rw [portFieldOutOfRange, if_neg hp, hn] at hc
          simp at hc
          omega
      · by_cases hp : f.rcon_port = ""
        · simp [submitPayload, hp] at hn
        · simp only [submitPayload] at hn
          rw [if_neg hp] at hn
          have hc := congrArg FormErrors.rcon_port hv
          simp [validateForm, noFormErrors] at hc
          rw [portFieldOutOfRange, if_neg hp, hn] at hc
          simp at hc
          omega
    · rw [if_neg hv] at hreq
      exact absurd hreq (by simp)
  · unfold handleSubmit
    rw [if_neg hf]
  · have hok : backendPortOk existing gameLo gameHi req.port = false := by
      rw [hpg]; simp [backendPortOk, huse]
    exact ⟨by simp [backendCreate, hok], by simp [backendCreate, hok, instancesAfter]⟩
  · have hok : backendPortOk existing rconLo rconHi req.rcon_port = false := by
      rw [hpr]; simp [backendPortOk, huse]
    exact ⟨by simp [backendCreate, hok], by simp [backendCreate, hok, instancesAfter]⟩

/-- Witness for C3: the validation gate applied at the concrete demo
form and its payload, and the spec-modelled conflict rejection applied
at the demo server and a request asking for its game port. -/
theorem create_validates_before_request_witness :
    (jsTrim demoForm.name ≠ "" ∧ demoForm.name.length ≤ 100 ∧
      jsTrim demoForm.version ≠ "" ∧
      (∀ n : Int, (submitPayload demoForm).port = some n → 1024 ≤ n ∧ n ≤ 65535) ∧
      (∀ n : Int, (submitPayload demoForm).rcon_port = some n → 1024 ≤ n ∧ n ≤ 65535)) ∧
    backendCreate 1024 65535 1024 65535 [demoServer]
        { name := "other", description := none, server_type := .paper,
          version := "1.20.4", memory_mb := 1024, port := some 25565, rcon_port := none }
        demoServer = .error .PortConflict := by
  constructor
  · exact create_validates_before_request.1 demoForm (submitPayload demoForm) (by decide)
  · exact (create_validates_before_request.2.2.1 1024 65535 1024 65535 [demoServer]
      { name := "other", description := none, server_type := .paper,
        version := "1.20.4", memory_mb := 1024, port := some 25565, rcon_port := none }
      demoServer 25565 rfl (by decide)).1

end Mineploy
